import Mathlib

/-!
Verification development for the decoder and variational-autoencoder branches
of a 3D volumetric brain-tumor segmentation network.

Source files embedded here:
* `model/decoder.py` (`DecoderBlock`, `ConvDecoder`)
* `model/variational_autoencoder.py` (`sample`, `VariationalAutoencoderBlock`,
  `VariationalAutoencoder`)

The embedding works at two complementary levels.

* A *shape* semantics: 5-dimensional tensor shapes in `channels_last` layout,
  with each tensor-engine primitive (3D convolution with `same` padding,
  upsampling, element-wise add, flatten, dense projection) given its shape
  behaviour.  Shape-mismatch at the additive fusion point is modelled with
  `Option` (`none` = construction-time shape error).
* A *value* semantics for the parts of the code whose element-wise values the
  spec pins down: tensors are flat lists of reals, the reparameterization
  `sample` is translated literally, and learned layers are abstract functions
  bundled in a parameter record (they are black boxes owned by the external
  tensor-execution engine).

`utils/constants.py`, `model/resnet_block.py` / `model/layers.py` (`ConvBlock`)
and `model/group_norm.py` (`GroupNormalization`) are imported by the two source
files but are not part of this repository snapshot; they are modelled from the
spec where noted.
-/

namespace BrainSeg

/-- Shape of a 5-dimensional tensor in `channels_last` layout:
`(batch, s1, s2, s3, ch)` where `s1, s2, s3` are the spatial extents and `ch`
the channel count. -/
structure Shape where
  batch : ℕ
  s1 : ℕ
  s2 : ℕ
  s3 : ℕ
  ch : ℕ
deriving DecidableEq, Repr

/-- Ceiling division: the output spatial extent of a stride-`k` convolution
with TensorFlow `same` padding is `⌈extent / k⌉`. -/
def cdiv (a k : ℕ) : ℕ := (a + k - 1) / k

/-- Descriptor of a `tf.keras.layers.Conv3D` layer: the constructor arguments
that determine its output shape and activation (all convolutions in the two
source files use `padding='same'`). -/
structure Conv3D where
  filters : ℕ
  kernel_size : ℕ
  strides : ℕ
  activation : Option String
deriving DecidableEq, Repr

/-- Output shape of a `same`-padded `Conv3D`: every spatial extent is
ceiling-divided by the stride and the channel count becomes `filters`. -/
def Conv3D.outShape (l : Conv3D) (s : Shape) : Shape :=
  ⟨s.batch, cdiv s.s1 l.strides, cdiv s.s2 l.strides, cdiv s.s3 l.strides, l.filters⟩

/-- Output shape of `tf.keras.layers.UpSampling3D(size=k)`: every spatial
extent is multiplied by `k`. -/
def upSampleShape (k : ℕ) (s : Shape) : Shape :=
  ⟨s.batch, k * s.s1, k * s.s2, k * s.s3, s.ch⟩

/-- Shape behaviour of `tf.keras.layers.Add()`: element-wise addition requires
the two operand shapes to coincide; a mismatch is a construction-time shape
error, modelled as `none`. -/
def addShape (a b : Shape) : Option Shape :=
  if a = b then some a else none

/-- Modelled from the spec: `ConvBlock` (defined in `model/resnet_block.py` /
`model/layers.py`, which are not under `src/`) is a residual convolutional
unit treated as a black box; per §4.1 its output has `filters` channels and,
being built from `same`-padded convolutions, it preserves spatial extent. -/
def convBlockShape (filters : ℕ) (s : Shape) : Shape :=
  { s with ch := filters }

/-- Modelled from the spec: `GroupNormalization` (defined in
`model/group_norm.py`, not under `src/`) normalizes activations over channel
groups and preserves tensor shape. -/
def groupNormShape (s : Shape) : Shape := s

/-- A rectified-linear activation layer preserves tensor shape. -/
def reluShape (s : Shape) : Shape := s

/-- Number of features produced by `tf.keras.layers.Flatten` on one batch
element of a 5-dimensional tensor. -/
def flattenLen (s : Shape) : ℕ := s.s1 * s.s2 * s.s3 * s.ch

/-- Modelled from the spec: the named constants of `utils/constants.py`
(imported by both source files but not under `src/`), kept abstract as the
fields of a record.  `H`, `W`, `D` are the configured spatial extents of the
original encoder input and `IN_CH` its channel count; `OUT_CH` is the total
number of output channels of the segmentation head; the `DEC_*` and `VAE_*`
fields are the filter counts named in `decoder.py` and
`variational_autoencoder.py`. -/
structure Consts where
  H : ℕ
  W : ℕ
  D : ℕ
  IN_CH : ℕ
  OUT_CH : ℕ
  DEC_CONV_BLOCK2_SIZE : ℕ
  DEC_CONV_BLOCK1_SIZE : ℕ
  DEC_CONV_BLOCK0_SIZE : ℕ
  DEC_CONV_LAYER_SIZE : ℕ
  VAE_VD_CONV_SIZE : ℕ
  VAE_VD_BLOCK_SIZE : ℕ
  VAE_LATENT_SIZE : ℕ
  VAE_VU_BLOCK_SIZE : ℕ
  VAE_CONV_BLOCK2_SIZE : ℕ
  VAE_CONV_BLOCK1_SIZE : ℕ
  VAE_CONV_BLOCK0_SIZE : ℕ
deriving DecidableEq, Repr

namespace DecoderBlock

/-- The pointwise convolution of `DecoderBlock.__init__` (`decoder.py`
lines 55-62): `Conv3D(filters, kernel_size=1, strides=1, padding='same')`. -/
def conv3d_ptwise (filters : ℕ) : Conv3D := ⟨filters, 1, 1, none⟩

/-- Shape semantics of `DecoderBlock.call` (`decoder.py` lines 77-87):
pointwise convolution, upsample ×2, additive fusion with the encoder
residual, then `ConvBlock`. -/
def callShape (filters : ℕ) (x enc_res : Shape) : Option Shape :=
  (addShape (upSampleShape 2 ((conv3d_ptwise filters).outShape x)) enc_res).map
    (convBlockShape filters)

end DecoderBlock

namespace ConvDecoder

/-- The output feature convolution of `ConvDecoder.__init__` (`decoder.py`
lines 165-172): `Conv3D(DEC_CONV_LAYER_SIZE, kernel_size, strides=1)`. -/
def conv_out (c : Consts) (ks : ℕ) : Conv3D := ⟨c.DEC_CONV_LAYER_SIZE, ks, 1, none⟩

/-- The final logit convolution of `ConvDecoder.__init__` (`decoder.py`
lines 174-182): `Conv3D(OUT_CH-1, kernel_size=1, strides=1,
activation='sigmoid')`. -/
def ptwise_logits (c : Consts) : Conv3D := ⟨c.OUT_CH - 1, 1, 1, some "sigmoid"⟩

/-- Shape semantics of `ConvDecoder.call` (`decoder.py` lines 203-212): the
bottleneck goes through `dec_block_2` (fused with `enc_out_2`), `dec_block_1`
(fused with `enc_out_1`), `dec_block_0` (fused with `enc_out_0`), then the
feature convolution and the sigmoid logit convolution. -/
def callShape (c : Consts) (ks : ℕ) (e0 e1 e2 x : Shape) : Option Shape :=
  (DecoderBlock.callShape c.DEC_CONV_BLOCK2_SIZE x e2).bind fun y2 =>
  (DecoderBlock.callShape c.DEC_CONV_BLOCK1_SIZE y2 e1).bind fun y1 =>
  (DecoderBlock.callShape c.DEC_CONV_BLOCK0_SIZE y1 e0).map fun y0 =>
  (ptwise_logits c).outShape ((conv_out c ks).outShape y0)

end ConvDecoder

namespace VariationalAutoencoder

/-- The VD strided convolution of `VariationalAutoencoder.__init__`
(`variational_autoencoder.py` lines 112-118):
`Conv3D(VAE_VD_CONV_SIZE, kernel_size, strides=2, padding='same')`. -/
def conv3d_VD (c : Consts) (ks : ℕ) : Conv3D := ⟨c.VAE_VD_CONV_SIZE, ks, 2, none⟩

/-- Spatial extents of the VU reshape target (`variational_autoencoder.py`
lines 126-128): `h = int(H/16)`, `w = int(W/16)`, `d = int(D/16)`, computed
from the configured constants `H`, `W`, `D`. -/
def vuDims (c : Consts) : ℕ × ℕ × ℕ := (c.H / 16, c.W / 16, c.D / 16)

/-- Number of units of the VU dense projection `proj_VU`
(`variational_autoencoder.py` line 129): `Dense(h * w * d * 1)`. -/
def projVUUnits (c : Consts) : ℕ :=
  (vuDims c).1 * (vuDims c).2.1 * (vuDims c).2.2 * 1

/-- The VU channel-expanding pointwise convolution `conv1d_VU`
(`variational_autoencoder.py` lines 132-138):
`Conv3D(VAE_VU_BLOCK_SIZE, kernel_size=1, strides=1)`. -/
def conv1d_VU (c : Consts) : Conv3D := ⟨c.VAE_VU_BLOCK_SIZE, 1, 1, none⟩

/-- The final output convolution `conv_out` (`variational_autoencoder.py`
lines 164-170): `Conv3D(IN_CH, kernel_size, strides=1)`, constructed with no
activation argument. -/
def conv_out (c : Consts) (ks : ℕ) : Conv3D := ⟨c.IN_CH, ks, 1, none⟩

/-- Shape semantics of `VariationalAutoencoderBlock.call`
(`variational_autoencoder.py` lines 67-75): pointwise convolution, upsample
×2, `ConvBlock`; no encoder residual. -/
def blockShape (filters : ℕ) (s : Shape) : Shape :=
  convBlockShape filters
    (upSampleShape 2 ((⟨filters, 1, 1, none⟩ : Conv3D).outShape s))

/-- Shape of the VU stage applied after the sampled latent vector
(`variational_autoencoder.py` lines 196-200): dense projection, relu, reshape
to the single-channel volume `(h, w, d, 1)`, pointwise channel expansion,
upsample ×2.  (The reshape never fails: `proj_VU` produces exactly
`h * w * d * 1` features.) -/
def vuShape (c : Consts) (b : ℕ) : Shape :=
  upSampleShape 2
    ((conv1d_VU c).outShape ⟨b, (vuDims c).1, (vuDims c).2.1, (vuDims c).2.2, 1⟩)

/-- Shape semantics of `VariationalAutoencoder.call`
(`variational_autoencoder.py` lines 172-214).  Returns the shape of the
reconstruction and the 2-dimensional shapes `(batch, length)` of `z_mean` and
`z_logvar`.  The slices `x[:, :VAE_LATENT_SIZE]` and `x[:, VAE_LATENT_SIZE:]`
of a length-`n` feature axis have lengths `min VAE_LATENT_SIZE n` and
`n - VAE_LATENT_SIZE`. -/
def callShape (c : Consts) (ks : ℕ) (x : Shape) : Shape × (ℕ × ℕ) × (ℕ × ℕ) :=
  let projLen := c.VAE_VD_BLOCK_SIZE
  let meanSh : ℕ × ℕ := (x.batch, min c.VAE_LATENT_SIZE projLen)
  let logvarSh : ℕ × ℕ := (x.batch, projLen - c.VAE_LATENT_SIZE)
  let v := vuShape c x.batch
  let y := blockShape c.VAE_CONV_BLOCK0_SIZE
            (blockShape c.VAE_CONV_BLOCK1_SIZE
              (blockShape c.VAE_CONV_BLOCK2_SIZE v))
  ((conv_out c ks).outShape y, meanSh, logvarSh)

end VariationalAutoencoder

/-! ### Value-level model

Tensors are flat lists of reals (one batch element, or one row of a
2-dimensional tensor).  The element-wise engine primitives used by `sample`
are translated directly; learned layers are abstract functions bundled in a
parameter record, reflecting that their kernels are parameters owned by the
external engine. -/

/-- Element-wise tensor addition (`+` on equally-shaped tensors). -/
def tensorAdd (a b : List ℝ) : List ℝ := List.zipWith (· + ·) a b

/-- Element-wise tensor multiplication (`*` on equally-shaped tensors). -/
def tensorMul (a b : List ℝ) : List ℝ := List.zipWith (· * ·) a b

/-- Element-wise `tf.math.exp`. -/
noncomputable def tensorExp (a : List ℝ) : List ℝ := a.map Real.exp

/-- Multiplication of a tensor by a scalar. -/
def scalarMul (r : ℝ) (a : List ℝ) : List ℝ := a.map (r * ·)

/-- Value semantics of `sample` (`variational_autoencoder.py` lines 8-12)
with the random draw `eps` passed explicitly (the source draws
`eps = tf.random.normal(shape=z_mean.shape)`; the claims fix this draw):
`z_mean + exp(0.5 * z_logvar) * eps`. -/
noncomputable def sample (z_mean z_logvar eps : List ℝ) : List ℝ :=
  tensorAdd z_mean (tensorMul (tensorExp (scalarMul 0.5 z_logvar)) eps)

/-- Value semantics of `tf.keras.layers.Dense(units)` on one batch row:
`w` is the list of `units` weight rows and `b` the list of `units` biases. -/
def dense (w : List (List ℝ)) (b : List ℝ) (x : List ℝ) : List ℝ :=
  List.zipWith (fun row bi => (List.zipWith (· * ·) row x).sum + bi) w b

/-- The learned sub-layers of one `DecoderBlock` as abstract functions
(`decoder.py` lines 55-75); the additive fusion `Add()` is element-wise
addition and is translated concretely in `DecoderBlock.callF`. -/
structure DecoderBlockF where
  conv3d_ptwise : List ℝ → List ℝ
  upsample : List ℝ → List ℝ
  conv_block : List ℝ → List ℝ

/-- Value semantics of `DecoderBlock.call` (`decoder.py` lines 77-87). -/
def DecoderBlock.callF (p : DecoderBlockF) (inputs : List ℝ × List ℝ) : List ℝ :=
  p.conv_block (tensorAdd (p.upsample (p.conv3d_ptwise inputs.1)) inputs.2)

/-- The learned sub-layers of `ConvDecoder` (`decoder.py` lines 137-182). -/
structure ConvDecoderF where
  dec_block_2 : DecoderBlockF
  dec_block_1 : DecoderBlockF
  dec_block_0 : DecoderBlockF
  conv_out : List ℝ → List ℝ
  ptwise_logits : List ℝ → List ℝ

/-- Value semantics of `ConvDecoder.call` (`decoder.py` lines 203-212). -/
def ConvDecoder.callF (p : ConvDecoderF)
    (inputs : List ℝ × List ℝ × List ℝ × List ℝ) : List ℝ :=
  let e0 := inputs.1
  let e1 := inputs.2.1
  let e2 := inputs.2.2.1
  let x := inputs.2.2.2
  p.ptwise_logits (p.conv_out
    (DecoderBlock.callF p.dec_block_0
      (DecoderBlock.callF p.dec_block_1
        (DecoderBlock.callF p.dec_block_2 (x, e2), e1), e0)))

/-- The learned sub-layers of `VariationalAutoencoder`
(`variational_autoencoder.py` lines 107-170) as abstract functions. -/
structure VariationalAutoencoderF where
  groupnorm_VD : List ℝ → List ℝ
  relu_VD : List ℝ → List ℝ
  conv3d_VD : List ℝ → List ℝ
  flatten_VD : List ℝ → List ℝ
  proj_VD : List ℝ → List ℝ
  proj_VU : List ℝ → List ℝ
  relu_VU : List ℝ → List ℝ
  reshape_VU : List ℝ → List ℝ
  conv1d_VU : List ℝ → List ℝ
  conv3d_upsample_VU : List ℝ → List ℝ
  conv_block_2 : List ℝ → List ℝ
  conv_block_1 : List ℝ → List ℝ
  conv_block_0 : List ℝ → List ℝ
  conv_out : List ℝ → List ℝ

/-- The VD stage of `VariationalAutoencoder.call`
(`variational_autoencoder.py` lines 183-188): group-normalize, relu, strided
convolution, flatten, dense-project. -/
def VariationalAutoencoder.vdF (p : VariationalAutoencoderF) (x : List ℝ) : List ℝ :=
  p.proj_VD (p.flatten_VD (p.conv3d_VD (p.relu_VD (p.groupnorm_VD x))))

/-- Value semantics of `VariationalAutoencoder.call`
(`variational_autoencoder.py` lines 172-214), with the latent size `L` and
the random draw `eps` explicit.  `z_mean = x[:, :L]` is `List.take L`,
`z_logvar = x[:, L:]` is `List.drop L` on the projected row; the return value
is the triple `(reconstruction, z_mean, z_logvar)`. -/
noncomputable def VariationalAutoencoder.callF (p : VariationalAutoencoderF)
    (L : ℕ) (eps x : List ℝ) : List ℝ × List ℝ × List ℝ :=
  let proj := VariationalAutoencoder.vdF p x
  let z_mean := proj.take L
  let z_logvar := proj.drop L
  let s := sample z_mean z_logvar eps
  let recon := p.conv_out (p.conv_block_0 (p.conv_block_1 (p.conv_block_2
    (p.conv3d_upsample_VU (p.conv1d_VU (p.reshape_VU (p.relu_VU (p.proj_VU s))))))))
  (recon, z_mean, z_logvar)

/-! ### Configuration / serialization model

`DecoderBlock.__init__` and `ConvDecoder.__init__` build `self.config` as the
base Keras layer config (`super().get_config()`, modelled as an abstract
association list `base`) updated with an explicit dictionary of constructor
arguments; `get_config` returns that dictionary.  `VariationalAutoencoderBlock`
and `VariationalAutoencoder` never touch `self.config` nor override
`get_config`, so their serialized configuration is just the base layer config,
independent of every constructor argument. -/

/-- A value stored in a Keras config dictionary. -/
inductive CVal
  | vNat (n : ℕ)
  | vStr (s : String)
  | vBool (b : Bool)
  | vNone
deriving DecidableEq, Repr

/-- Model of `tf.keras.regularizers.serialize`: `None` serializes to `None`, a
regularizer object to its descriptor (abstracted to its name). -/
def serializeRegularizer : Option String → CVal
  | none => CVal.vNone
  | some s => CVal.vStr s

/-- The constructor arguments of `DecoderBlock.__init__` (`decoder.py`
lines 8-16), with the source's default values. -/
structure DecoderBlockArgs where
  filters : ℕ
  kernel_size : ℕ := 3
  data_format : String := "channels_last"
  groups : ℕ := 8
  reduction : ℕ := 4
  kernel_regularizer : Option String := none
  kernel_initializer : String := "he_normal"
  use_se : Bool := false
deriving DecidableEq, Repr

/-- The keys `DecoderBlock.__init__` adds to `self.config` (`decoder.py`
lines 47-53), in source order. -/
def decoderBlockKeys : List String :=
  ["filters", "kernel_size", "data_format", "groups", "reduction",
   "kernel_regularizer", "use_se"]

/-- The config dictionary built by `DecoderBlock.__init__` (`decoder.py`
lines 46-53) and returned by `DecoderBlock.get_config` (lines 89-90): the
base layer config updated with the enumerated constructor arguments
(`kernel_initializer` is not among them). -/
def decoderBlockConfig (base : List (String × CVal)) (a : DecoderBlockArgs) :
    List (String × CVal) :=
  base ++
    [("filters", CVal.vNat a.filters),
     ("kernel_size", CVal.vNat a.kernel_size),
     ("data_format", CVal.vStr a.data_format),
     ("groups", CVal.vNat a.groups),
     ("reduction", CVal.vNat a.reduction),
     ("kernel_regularizer", serializeRegularizer a.kernel_regularizer),
     ("use_se", CVal.vBool a.use_se)]

/-- Lookup of a key in a config dictionary (last binding wins, matching
`dict.update` semantics; the stored keys are distinct so any lookup order
agrees). -/
def lookupCfg (cfg : List (String × CVal)) (k : String) : Option CVal :=
  (cfg.reverse.find? (fun p => p.1 == k)).map (fun p => p.2)

/-- Decode helpers for reading a config dictionary back. -/
def asNat (v : Option CVal) (dflt : ℕ) : ℕ :=
  match v with
  | some (CVal.vNat n) => n
  | _ => dflt

def asStr (v : Option CVal) (dflt : String) : String :=
  match v with
  | some (CVal.vStr s) => s
  | _ => dflt

def asBool (v : Option CVal) (dflt : Bool) : Bool :=
  match v with
  | some (CVal.vBool b) => b
  | _ => dflt

def asReg (v : Option CVal) : Option String :=
  match v with
  | some (CVal.vStr s) => some s
  | _ => none

/-- Reconstruction of a `DecoderBlock` from its serialized configuration
alone: each constructor argument is read back from the dictionary;
`kernel_initializer`, which the dictionary does not store, falls back to the
constructor default. -/
def reconstructDecoderBlock (cfg : List (String × CVal)) : DecoderBlockArgs :=
  { filters := asNat (lookupCfg cfg "filters") 0,
    kernel_size := asNat (lookupCfg cfg "kernel_size") 3,
    data_format := asStr (lookupCfg cfg "data_format") "channels_last",
    groups := asNat (lookupCfg cfg "groups") 8,
    reduction := asNat (lookupCfg cfg "reduction") 4,
    kernel_regularizer := asReg (lookupCfg cfg "kernel_regularizer"),
    kernel_initializer := "he_normal",
    use_se := asBool (lookupCfg cfg "use_se") false }

/-- The constructor arguments of `ConvDecoder.__init__` (`decoder.py`
lines 94-101); it takes no filter count. -/
structure ConvDecoderArgs where
  data_format : String := "channels_last"
  kernel_size : ℕ := 3
  groups : ℕ := 8
  reduction : ℕ := 4
  kernel_regularizer : Option String := none
  kernel_initializer : String := "he_normal"
  use_se : Bool := false
deriving DecidableEq, Repr

/-- The keys `ConvDecoder.__init__` adds to `self.config` (`decoder.py`
lines 130-135), in source order. -/
def convDecoderKeys : List String :=
  ["data_format", "kernel_size", "groups", "reduction",
   "kernel_regularizer", "use_se"]

/-- The config dictionary built by `ConvDecoder.__init__` (`decoder.py`
lines 129-135) and returned by `ConvDecoder.get_config` (lines 214-215). -/
def convDecoderConfig (base : List (String × CVal)) (a : ConvDecoderArgs) :
    List (String × CVal) :=
  base ++
    [("data_format", CVal.vStr a.data_format),
     ("kernel_size", CVal.vNat a.kernel_size),
     ("groups", CVal.vNat a.groups),
     ("reduction", CVal.vNat a.reduction),
     ("kernel_regularizer", serializeRegularizer a.kernel_regularizer),
     ("use_se", CVal.vBool a.use_se)]

/-- Reconstruction of a `ConvDecoder` from its serialized configuration. -/
def reconstructConvDecoder (cfg : List (String × CVal)) : ConvDecoderArgs :=
  { data_format := asStr (lookupCfg cfg "data_format") "channels_last",
    kernel_size := asNat (lookupCfg cfg "kernel_size") 3,
    groups := asNat (lookupCfg cfg "groups") 8,
    reduction := asNat (lookupCfg cfg "reduction") 4,
    kernel_regularizer := asReg (lookupCfg cfg "kernel_regularizer"),
    kernel_initializer := "he_normal",
    use_se := asBool (lookupCfg cfg "use_se") false }

/-- The constructor arguments of `VariationalAutoencoderBlock.__init__`
(`variational_autoencoder.py` lines 16-21). -/
structure VariationalAutoencoderBlockArgs where
  filters : ℕ
  kernel_size : ℕ := 3
  data_format : String := "channels_last"
  groups : ℕ := 8
  kernel_regularizer : Option String := none
deriving DecidableEq, Repr

/-- The serialized configuration of a `VariationalAutoencoderBlock`
(`variational_autoencoder.py` lines 15-75): the class stores no configuration
and does not override `get_config`, so serialization yields only the base
layer config, independent of every constructor argument. -/
def vaeBlockConfig (base : List (String × CVal))
    (_ : VariationalAutoencoderBlockArgs) : List (String × CVal) :=
  base

/-- The constructor arguments of `VariationalAutoencoder.__init__`
(`variational_autoencoder.py` lines 79-83). -/
structure VariationalAutoencoderArgs where
  data_format : String := "channels_last"
  groups : ℕ := 8
  kernel_size : ℕ := 3
  kernel_regularizer : Option String := none
deriving DecidableEq, Repr

/-- The serialized configuration of a `VariationalAutoencoder`
(`variational_autoencoder.py` lines 78-170): the class stores no
configuration and does not override `get_config`. -/
def vaeConfig (base : List (String × CVal))
    (_ : VariationalAutoencoderArgs) : List (String × CVal) :=
  base

/-! ### Concrete instances used by witnesses -/

/-- A concrete instantiation of the configuration constants, matching the
paper-style values the spec's end-to-end scenario uses (`decoder.py`
docstrings: decoder blocks at 128/64/32 filters, output feature convolution
at 32). -/
def exampleConsts : Consts :=
  { H := 64, W := 64, D := 64, IN_CH := 4, OUT_CH := 3,
    DEC_CONV_BLOCK2_SIZE := 128, DEC_CONV_BLOCK1_SIZE := 64,
    DEC_CONV_BLOCK0_SIZE := 32, DEC_CONV_LAYER_SIZE := 32,
    VAE_VD_CONV_SIZE := 16, VAE_VD_BLOCK_SIZE := 256,
    VAE_LATENT_SIZE := 128, VAE_VU_BLOCK_SIZE := 256,
    VAE_CONV_BLOCK2_SIZE := 128, VAE_CONV_BLOCK1_SIZE := 64,
    VAE_CONV_BLOCK0_SIZE := 32 }

/-- A small instantiation of the constants for value-level witnesses. -/
def smallConsts : Consts :=
  { H := 32, W := 32, D := 32, IN_CH := 4, OUT_CH := 3,
    DEC_CONV_BLOCK2_SIZE := 8, DEC_CONV_BLOCK1_SIZE := 4,
    DEC_CONV_BLOCK0_SIZE := 2, DEC_CONV_LAYER_SIZE := 2,
    VAE_VD_CONV_SIZE := 2, VAE_VD_BLOCK_SIZE := 4,
    VAE_LATENT_SIZE := 2, VAE_VU_BLOCK_SIZE := 4,
    VAE_CONV_BLOCK2_SIZE := 8, VAE_CONV_BLOCK1_SIZE := 4,
    VAE_CONV_BLOCK0_SIZE := 2 }

/-- A concrete `DecoderBlockF` whose learned sub-layers are the identity. -/
def idDecoderBlockF : DecoderBlockF := ⟨id, id, id⟩

/-- A concrete `ConvDecoderF` whose learned sub-layers are the identity. -/
def idConvDecoderF : ConvDecoderF :=
  ⟨idDecoderBlockF, idDecoderBlockF, idDecoderBlockF, id, id⟩

/-- A concrete `VariationalAutoencoderF` whose learned sub-layers are the
identity. -/
def idVariationalAutoencoderF : VariationalAutoencoderF :=
  ⟨id, id, id, id, id, id, id, id, id, id, id, id, id, id⟩

/-- A concrete base Keras layer config (name, trainable, dtype). -/
def exampleBase : List (String × CVal) :=
  [("name", CVal.vStr "decoder_block"), ("trainable", CVal.vBool true),
   ("dtype", CVal.vStr "float32")]

/-- Formalization of the C4 claim's words (for comparison with the source):
a dense projection to `h*w*d` values where `h`, `w`, `d` are *the bottleneck's
spatial dimensions* each divided by 16. -/
def claimedProjVUUnits (x : Shape) : ℕ :=
  (x.s1 / 16) * (x.s2 / 16) * (x.s3 / 16) * 1

/-! ### Helper lemmas -/

theorem cdiv_one (a : ℕ) : cdiv a 1 = a := by
  simp [cdiv]

theorem decoderBlockConfig_roundtrip (base : List (String × CVal))
    (a : DecoderBlockArgs) :
    decoderBlockConfig base (reconstructDecoderBlock (decoderBlockConfig base a)) =
      decoderBlockConfig base a := by
  cases hr : a.kernel_regularizer <;>
    simp [decoderBlockConfig, reconstructDecoderBlock, lookupCfg,
      List.reverse_append, List.find?, asNat, asStr, asBool, asReg,
      serializeRegularizer, hr]

theorem convDecoderConfig_roundtrip (base : List (String × CVal))
    (a : ConvDecoderArgs) :
    convDecoderConfig base (reconstructConvDecoder (convDecoderConfig base a)) =
      convDecoderConfig base a := by
  cases hr : a.kernel_regularizer <;>
    simp [convDecoderConfig, reconstructConvDecoder, lookupCfg,
      List.reverse_append, List.find?, asNat, asStr, asBool, asReg,
      serializeRegularizer, hr]

/-! ### Claim theorems -/

/-- C1: for equally-shaped `mean` and `log_variance` and a fixed random draw
`eps` of the same shape, the sampling step returns exactly
`mean + exp(0.5 * log_variance) * eps`, element by element. -/
theorem sample_reparameterization (m lv e : List ℝ) (i : ℕ)
    (him : i < m.length) (hilv : i < lv.length) (hie : i < e.length) :
    (sample m lv e)[i]? =
      some (m.getD i 0 + Real.exp (0.5 * lv.getD i 0) * e.getD i 0) := by
  induction m generalizing lv e i with
  | nil => simp at him
  | cons a m ih =>
    cases lv with
    | nil => simp at hilv
    | cons bb lv =>
      cases e with
      | nil => simp at hie
      | cons ee e =>
        cases i with
        | zero =>
          simp [sample, tensorAdd, tensorMul, tensorExp, scalarMul]
        | succ i =>
          have hm : i < m.length := by simpa using him
          have hl : i < lv.length := by simpa using hilv
          have he : i < e.length := by simpa using hie
          have := ih lv e i hm hl he
          simpa [sample, tensorAdd, tensorMul, tensorExp, scalarMul] using this

/-- Witness for C1 at a concrete input. -/
theorem sample_reparameterization_witness :
    (sample [1, 2] [0, 0] [3, 4])[0]? =
      some ((([1, 2] : List ℝ).getD 0 0) +
        Real.exp (0.5 * (([0, 0] : List ℝ).getD 0 0)) *
          (([3, 4] : List ℝ).getD 0 0)) :=
  sample_reparameterization [1, 2] [0, 0] [3, 4] 0
    (by simp) (by simp) (by simp)

/-- C5: `DecoderBlock.call` is exactly the branch-free pipeline pointwise
convolution, upsample ×2, element-wise addition with the encoder residual,
then `ConvBlock` (value level), and whenever the shapes fuse, the output has
`filters` channels (shape level). -/
theorem decoderBlock_pipeline (p : DecoderBlockF) (x res : List ℝ)
    (filters : ℕ) (xs rs s : Shape)
    (h : DecoderBlock.callShape filters xs rs = some s) :
    DecoderBlock.callF p (x, res) =
      p.conv_block (tensorAdd (p.upsample (p.conv3d_ptwise x)) res) ∧
    s.ch = filters := by
  refine ⟨rfl, ?_⟩
  simp only [DecoderBlock.callShape, addShape] at h
  split at h
  · simp only [Option.map_some', Option.some.injEq] at h
    subst h
    rfl
  · simp at h

/-- Witness for C5 at a concrete input. -/
theorem decoderBlock_pipeline_witness :
    DecoderBlock.callF idDecoderBlockF ([1], [2]) =
      idDecoderBlockF.conv_block (tensorAdd (idDecoderBlockF.upsample
        (idDecoderBlockF.conv3d_ptwise [1])) [2]) ∧
    (⟨1, 16, 16, 16, 32⟩ : Shape).ch = 32 :=
  decoderBlock_pipeline idDecoderBlockF [1] [2] 32
    ⟨1, 8, 8, 8, 64⟩ ⟨1, 16, 16, 16, 32⟩ ⟨1, 16, 16, 16, 32⟩ (by decide)

/-- C9: each forward pass is a pure, deterministic function of the input
tensors, the learned parameters, and (for the autoencoder) the sampling
draw: equal inputs, parameters, and draw give equal outputs. -/
theorem forward_pass_deterministic :
    (∀ (p q : ConvDecoderF) (i j : List ℝ × List ℝ × List ℝ × List ℝ),
      p = q → i = j → ConvDecoder.callF p i = ConvDecoder.callF q j) ∧
    (∀ (p q : VariationalAutoencoderF) (L : ℕ) (e1 e2 x1 x2 : List ℝ),
      p = q → e1 = e2 → x1 = x2 →
        VariationalAutoencoder.callF p L e1 x1 =
          VariationalAutoencoder.callF q L e2 x2) :=
  ⟨fun _ _ _ _ hp hi => by rw [hp, hi],
   fun _ _ _ _ _ _ _ hp he hx => by rw [hp, he, hx]⟩

/-- Witness for C9 at a concrete input. -/
theorem forward_pass_deterministic_witness :
    ConvDecoder.callF idConvDecoderF ([0], [0], [0], [1]) =
      ConvDecoder.callF idConvDecoderF ([0], [0], [0], [1]) ∧
    VariationalAutoencoder.callF idVariationalAutoencoderF 1 [0] [1] =
      VariationalAutoencoder.callF idVariationalAutoencoderF 1 [0] [1] :=
  ⟨forward_pass_deterministic.1 idConvDecoderF idConvDecoderF
      ([0], [0], [0], [1]) ([0], [0], [0], [1]) rfl rfl,
   forward_pass_deterministic.2 idVariationalAutoencoderF
      idVariationalAutoencoderF 1 [0] [0] [1] [1] rfl rfl rfl⟩

/-- C10: the `mean` and `log_variance` returned by
`VariationalAutoencoder.call` are exactly the slices of the VD dense
projection computed before sampling, and no later stage (in particular not
the sampling draw) modifies them. -/
theorem vae_returns_presampling_slices (p : VariationalAutoencoderF)
    (L : ℕ) (eps eps2 x : List ℝ) :
    (VariationalAutoencoder.callF p L eps x).2.1 =
      (VariationalAutoencoder.vdF p x).take L ∧
    (VariationalAutoencoder.callF p L eps x).2.2 =
      (VariationalAutoencoder.vdF p x).drop L ∧
    (VariationalAutoencoder.callF p L eps x).2.1 =
      (VariationalAutoencoder.callF p L eps2 x).2.1 ∧
    (VariationalAutoencoder.callF p L eps x).2.2 =
      (VariationalAutoencoder.callF p L eps2 x).2.2 :=
  ⟨rfl, rfl, rfl, rfl⟩

/-- C2: `ConvDecoder.call` applies the three decoder blocks against the
coarsest, middle, and finest encoder residuals in that order, then the
feature convolution and the pointwise sigmoid convolution; given residuals
whose shapes fuse (spatial extents 2×, 4×, 8× the bottleneck's, with the
matching filter counts), the output has the finest residual's spatial extent
— the original encoder input's — and `OUT_CH - 1` channels. -/
theorem convDecoder_pipeline (c : Consts) (ks b s1 s2 s3 chx : ℕ)
    (e0 e1 e2 : Shape)
    (h2 : e2 = ⟨b, 2 * s1, 2 * s2, 2 * s3, c.DEC_CONV_BLOCK2_SIZE⟩)
    (h1 : e1 = ⟨b, 4 * s1, 4 * s2, 4 * s3, c.DEC_CONV_BLOCK1_SIZE⟩)
    (h0 : e0 = ⟨b, 8 * s1, 8 * s2, 8 * s3, c.DEC_CONV_BLOCK0_SIZE⟩) :
    ConvDecoder.callShape c ks e0 e1 e2 ⟨b, s1, s2, s3, chx⟩ =
      some ⟨e0.batch, e0.s1, e0.s2, e0.s3, c.OUT_CH - 1⟩ ∧
    (ConvDecoder.ptwise_logits c).kernel_size = 1 ∧
    (ConvDecoder.ptwise_logits c).activation = some "sigmoid" := by
  subst h2 h1 h0
  refine ⟨?_, rfl, rfl⟩
  have m4 : ∀ n : ℕ, 2 * (2 * n) = 4 * n := fun n => by ring
  have m8 : ∀ n : ℕ, 2 * (4 * n) = 8 * n := fun n => by ring
  simp [ConvDecoder.callShape, DecoderBlock.callShape, DecoderBlock.conv3d_ptwise,
    Conv3D.outShape, upSampleShape, addShape, convBlockShape, cdiv_one,
    ConvDecoder.conv_out, ConvDecoder.ptwise_logits, m4, m8]

/-- Witness for C2: the spec's end-to-end scenario, bottleneck
`(1, 8, 8, 8, 256)` with residuals `(1,16,16,16,128)`, `(1,32,32,32,64)`,
`(1,64,64,64,32)`. -/
theorem convDecoder_pipeline_witness :
    ConvDecoder.callShape exampleConsts 3 ⟨1, 64, 64, 64, 32⟩
        ⟨1, 32, 32, 32, 64⟩ ⟨1, 16, 16, 16, 128⟩ ⟨1, 8, 8, 8, 256⟩ =
      some ⟨1, 64, 64, 64, exampleConsts.OUT_CH - 1⟩ ∧
    (ConvDecoder.ptwise_logits exampleConsts).kernel_size = 1 ∧
    (ConvDecoder.ptwise_logits exampleConsts).activation = some "sigmoid" :=
  convDecoder_pipeline exampleConsts 3 1 8 8 8 256
    ⟨1, 64, 64, 64, 32⟩ ⟨1, 32, 32, 32, 64⟩ ⟨1, 16, 16, 16, 128⟩
    (by decide) (by decide) (by decide)

/-- C3: the flattened VD activation is dense-projected to a vector of length
`2 * VAE_LATENT_SIZE` (with `VAE_VD_BLOCK_SIZE = 2 * VAE_LATENT_SIZE` as the
spec fixes the missing constants); the first `VAE_LATENT_SIZE` entries are
returned as `mean` and the remaining ones as `log_variance`, and both
2-dimensional shapes are `(batch, VAE_LATENT_SIZE)`. -/
theorem vd_projection_split (c : Consts)
    (hc : c.VAE_VD_BLOCK_SIZE = 2 * c.VAE_LATENT_SIZE)
    (w : List (List ℝ)) (b x : List ℝ) (ks : ℕ) (xs : Shape)
    (hw : w.length = c.VAE_VD_BLOCK_SIZE)
    (hb : b.length = c.VAE_VD_BLOCK_SIZE) :
    (dense w b x).length = 2 * c.VAE_LATENT_SIZE ∧
    ((dense w b x).take c.VAE_LATENT_SIZE).length = c.VAE_LATENT_SIZE ∧
    ((dense w b x).drop c.VAE_LATENT_SIZE).length = c.VAE_LATENT_SIZE ∧
    (dense w b x).take c.VAE_LATENT_SIZE ++
        (dense w b x).drop c.VAE_LATENT_SIZE = dense w b x ∧
    (VariationalAutoencoder.callShape c ks xs).2.1 =
      (xs.batch, c.VAE_LATENT_SIZE) ∧
    (VariationalAutoencoder.callShape c ks xs).2.2 =
      (xs.batch, c.VAE_LATENT_SIZE) := by
  have hlen : (dense w b x).length = 2 * c.VAE_LATENT_SIZE := by
    simp [dense, hw, hb, hc]
  refine ⟨hlen, ?_, ?_, List.take_append_drop _ _, ?_, ?_⟩
  · rw [List.length_take, hlen]
    omega
  · rw [List.length_drop, hlen]
    omega
  · simp [VariationalAutoencoder.callShape, hc]
    omega
  · simp [VariationalAutoencoder.callShape, hc]
    omega

/-- Witness for C3 at a concrete input. -/
theorem vd_projection_split_witness :
    (dense (List.replicate 4 [1]) (List.replicate 4 0) [1]).length =
      2 * smallConsts.VAE_LATENT_SIZE ∧
    ((dense (List.replicate 4 [1]) (List.replicate 4 0) [1]).take
        smallConsts.VAE_LATENT_SIZE).length = smallConsts.VAE_LATENT_SIZE ∧
    ((dense (List.replicate 4 [1]) (List.replicate 4 0) [1]).drop
        smallConsts.VAE_LATENT_SIZE).length = smallConsts.VAE_LATENT_SIZE ∧
    (dense (List.replicate 4 [1]) (List.replicate 4 0) [1]).take
        smallConsts.VAE_LATENT_SIZE ++
      (dense (List.replicate 4 [1]) (List.replicate 4 0) [1]).drop
        smallConsts.VAE_LATENT_SIZE =
      dense (List.replicate 4 [1]) (List.replicate 4 0) [1] ∧
    (VariationalAutoencoder.callShape smallConsts 3 ⟨1, 2, 2, 2, 8⟩).2.1 =
      (1, smallConsts.VAE_LATENT_SIZE) ∧
    (VariationalAutoencoder.callShape smallConsts 3 ⟨1, 2, 2, 2, 8⟩).2.2 =
      (1, smallConsts.VAE_LATENT_SIZE) :=
  vd_projection_split smallConsts (by decide)
    (List.replicate 4 [1]) (List.replicate 4 0) [1] 3 ⟨1, 2, 2, 2, 8⟩
    (by simp [smallConsts]) (by simp [smallConsts])

/-- C4 counterexample: with the paper-style configuration (`H = W = D = 64`,
bottleneck spatial extent `64 / 8 = 8`), the VU dense projection has
`(64/16)^3 = 64` units, while the claim's "bottleneck's spatial dimensions
each divided by 16" gives `(8/16)^3 = 0`. -/
theorem vu_projection_cex :
    VariationalAutoencoder.projVUUnits exampleConsts = 64 ∧
    (⟨1, 8, 8, 8, 256⟩ : Shape).s1 = exampleConsts.H / 8 ∧
    claimedProjVUUnits ⟨1, 8, 8, 8, 256⟩ = 0 ∧
    VariationalAutoencoder.projVUUnits exampleConsts ≠
      claimedProjVUUnits ⟨1, 8, 8, 8, 256⟩ := by
  refine ⟨by decide, by decide, by decide, by decide⟩

/-- C4 (amended): the VU dense projection has `h*w*d` units where `h`, `w`,
`d` are the *configured original input* spatial dimensions `H`, `W`, `D` each
divided by 16 — equivalently, the bottleneck's spatial dimensions (`H/8`,
`W/8`, `D/8`) each divided by 2 — and the VU stage is relu, reshape to the
single-channel volume `(h, w, d, 1)`, a 1×1×1 channel-expanding convolution,
then upsample ×2. -/
theorem vu_stage (c : Consts) (b : ℕ) :
    VariationalAutoencoder.projVUUnits c =
      (c.H / 16) * (c.W / 16) * (c.D / 16) * 1 ∧
    VariationalAutoencoder.projVUUnits c =
      ((c.H / 8) / 2) * ((c.W / 8) / 2) * ((c.D / 8) / 2) * 1 ∧
    (VariationalAutoencoder.conv1d_VU c).kernel_size = 1 ∧
    (VariationalAutoencoder.conv1d_VU c).filters = c.VAE_VU_BLOCK_SIZE ∧
    VariationalAutoencoder.vuShape c b =
      ⟨b, 2 * (c.H / 16), 2 * (c.W / 16), 2 * (c.D / 16),
        c.VAE_VU_BLOCK_SIZE⟩ := by
  refine ⟨rfl, ?_, rfl, rfl, ?_⟩
  · simp [VariationalAutoencoder.projVUUnits, VariationalAutoencoder.vuDims,
      Nat.div_div_eq_div_mul]
  · simp [VariationalAutoencoder.vuShape, VariationalAutoencoder.vuDims,
      VariationalAutoencoder.conv1d_VU, Conv3D.outShape, upSampleShape,
      cdiv_one]

/-- C6: `VariationalAutoencoder.call` returns the triple
`(reconstruction, mean, log_variance)`; the reconstruction is produced by the
final convolution `conv_out`, constructed with no activation, whose output
channel count is `IN_CH` — the original input channel count — for every
configuration. -/
theorem vae_reconstruction_channels (c : Consts) (ks : ℕ) (x : Shape)
    (p : VariationalAutoencoderF) (L : ℕ) (eps xv : List ℝ) :
    ((VariationalAutoencoder.callShape c ks x).1).ch = c.IN_CH ∧
    (VariationalAutoencoder.conv_out c ks).filters = c.IN_CH ∧
    (VariationalAutoencoder.conv_out c ks).activation = none ∧
    (VariationalAutoencoder.callF p L eps xv).1 =
      p.conv_out (p.conv_block_0 (p.conv_block_1 (p.conv_block_2
        (p.conv3d_upsample_VU (p.conv1d_VU (p.reshape_VU (p.relu_VU
          (p.proj_VU (sample ((VariationalAutoencoder.vdF p xv).take L)
            ((VariationalAutoencoder.vdF p xv).drop L) eps))))))))) :=
  ⟨rfl, rfl, rfl, rfl⟩

/-- C7 counterexample: the config dictionary `DecoderBlock` serializes does
not contain a `kernel_initializer` entry, so the claimed enumerated field
list is wrong at a concrete instance. -/
theorem config_fields_cex :
    ¬ ("kernel_initializer" ∈
        (decoderBlockConfig exampleBase { filters := 128 }).map Prod.fst) := by
  decide

/-- C7 (amended): serializing a `DecoderBlock`'s or `ConvDecoder`'s
configuration and reconstructing a new instance from that configuration alone
yields an instance with identical configuration
(`reconstruct(serialize(layer)).config == layer.config`); the serialized
record contains filter count (`DecoderBlock` only), kernel size, data layout,
normalization group count, squeeze-excitation reduction ratio, kernel
regularizer descriptor, and the `use_se` flag — but not the kernel
initializer. -/
theorem config_roundtrip (base : List (String × CVal))
    (a : DecoderBlockArgs) (a2 : ConvDecoderArgs) :
    decoderBlockConfig base (reconstructDecoderBlock
        (decoderBlockConfig base a)) = decoderBlockConfig base a ∧
    convDecoderConfig base (reconstructConvDecoder
        (convDecoderConfig base a2)) = convDecoderConfig base a2 ∧
    (decoderBlockConfig base a).map Prod.fst =
      base.map Prod.fst ++ decoderBlockKeys ∧
    (convDecoderConfig base a2).map Prod.fst =
      base.map Prod.fst ++ convDecoderKeys ∧
    ¬ "kernel_initializer" ∈ decoderBlockKeys ∧
    ¬ "kernel_initializer" ∈ convDecoderKeys := by
  refine ⟨decoderBlockConfig_roundtrip base a, convDecoderConfig_roundtrip base a2,
    ?_, ?_, by decide, by decide⟩
  · simp [decoderBlockConfig, decoderBlockKeys]
  · simp [convDecoderConfig, convDecoderKeys]

/-- C8 counterexample: no reconstruction function can recover a
`VariationalAutoencoderBlock` from its serialized configuration alone — two
blocks with different filter counts (256 and 32) serialize to the same
configuration. -/
theorem components_serializable_cex :
    ¬ ∃ f : List (String × CVal) → VariationalAutoencoderBlockArgs,
        ∀ a : VariationalAutoencoderBlockArgs,
          f (vaeBlockConfig exampleBase a) = a := by
  intro hex
  obtain ⟨f, hf⟩ := hex
  have h1 := hf { filters := 256 }
  have h2 := hf { filters := 32 }
  have heq : ({ filters := 256 } : VariationalAutoencoderBlockArgs) =
      { filters := 32 } := h1.symm.trans h2
  exact absurd (congrArg VariationalAutoencoderBlockArgs.filters heq) (by decide)

/-- C8 (amended): `DecoderBlock` and `ConvDecoder` serialize their
constructor configuration and are reconstructable from it, but
`VariationalAutoencoderBlock` and `VariationalAutoencoder` never override
`get_config`: their serialized configuration is the bare base layer config,
independent of every constructor argument, so they cannot be reconstructed
from their configuration alone. -/
theorem components_serializable (base : List (String × CVal))
    (a : DecoderBlockArgs) (a2 : ConvDecoderArgs)
    (v v' : VariationalAutoencoderBlockArgs)
    (u u' : VariationalAutoencoderArgs) :
    decoderBlockConfig base (reconstructDecoderBlock
        (decoderBlockConfig base a)) = decoderBlockConfig base a ∧
    convDecoderConfig base (reconstructConvDecoder
        (convDecoderConfig base a2)) = convDecoderConfig base a2 ∧
    vaeBlockConfig base v = vaeBlockConfig base v' ∧
    vaeConfig base u = vaeConfig base u' :=
  ⟨decoderBlockConfig_roundtrip base a, convDecoderConfig_roundtrip base a2,
    rfl, rfl⟩

end BrainSeg
